import Mathlib

/-!
Verification development for the convertz-backend repository.

The repository contains three near-duplicate Express servers that accept an
uploaded file plus a requested output format, classify the file by extension,
dispatch to a backend adapter (sharp for images, ffmpeg for audio/video,
LibreOffice for documents), and return the produced artifact.

This file gives a shallow embedding of the conversion core of each variant:
  - namespace ServerCjs : src/server.cjs
  - namespace Part000   : src/unnamed/part_000
  - namespace Part001   : src/unnamed/part_001

The filesystem is modelled as a duplicate-free list of paths; external
processes are modelled by an environment record describing their outcome.
String and path manipulation mirrors Node's path module and JavaScript
string methods for the inputs the servers actually handle (ordinary file
names; the model of extname matches Node except for the degenerate base
names "." and "..", which never occur here).
-/

namespace Convertz

deriving instance DecidableEq for Except

/-- Lower-cases an ASCII letter, as JavaScript toLowerCase does on ASCII. -/
def lowerChar (c : Char) : Char :=
  if 'A' ≤ c ∧ c ≤ 'Z' then Char.ofNat (c.toNat + 32) else c

/-- Upper-cases an ASCII letter, as JavaScript toUpperCase does on ASCII. -/
def upperChar (c : Char) : Char :=
  if 'a' ≤ c ∧ c ≤ 'z' then Char.ofNat (c.toNat - 32) else c

/-- Model of JavaScript String.prototype.toLowerCase for ASCII data. -/
def jsToLower (s : String) : String := String.mk (s.data.map lowerChar)

/-- Model of JavaScript String.prototype.toUpperCase for ASCII data. -/
def jsToUpper (s : String) : String := String.mk (s.data.map upperChar)

/-- Splits a character list at the last occurrence of ch: returns
(part before the last ch, part after the last ch), or none when ch
does not occur. -/
def lastSepSplit (ch : Char) : List Char → Option (List Char × List Char)
  | [] => none
  | c :: cs =>
    match lastSepSplit ch cs with
    | some (pre, suf) => some (c :: pre, suf)
    | none => if c = ch then some ([], cs) else none

/-- Model of Node path.basename: the component after the last slash. -/
def basenameS (s : String) : String :=
  match lastSepSplit '/' s.data with
  | some (_, suf) => String.mk suf
  | none => s

/-- Model of Node path.extname: from the last dot of the basename to the
end; empty when the basename has no dot or only a leading dot. -/
def extnameS (s : String) : String :=
  match lastSepSplit '.' (basenameS s).data with
  | none => ""
  | some (pre, suf) => if pre = [] then "" else String.mk ('.' :: suf)

/-- Model of Node path.parse(p).name (equally of path.basename(p, extname p)):
the basename with its extname suffix removed. -/
def parseNameS (s : String) : String :=
  match lastSepSplit '.' (basenameS s).data with
  | none => basenameS s
  | some (pre, _) => if pre = [] then basenameS s else String.mk pre

/-- Model of Node path.dirname for the relative paths used here. -/
def dirnameS (s : String) : String :=
  match lastSepSplit '/' s.data with
  | some (pre, _) => if pre = [] then "/" else String.mk pre
  | none => "."

/-- Model of Node path.join for the two-component joins used here. -/
def pjoin (a b : String) : String := a ++ "/" ++ b

/-- Model of JavaScript String.prototype.startsWith. -/
def startsWithS (s pre : String) : Bool := pre.data.isPrefixOf s.data

/-- Replaces the first occurrence of pat (the empty pattern matches at the
start, as in JavaScript), on character lists. -/
def replaceFirstAux (pat repl : List Char) : List Char → List Char
  | [] => if pat.isPrefixOf ([] : List Char) then repl else []
  | c :: cs =>
    if pat.isPrefixOf (c :: cs) then repl ++ (c :: cs).drop pat.length
    else c :: replaceFirstAux pat repl cs

/-- Model of JavaScript String.prototype.replace with a string pattern:
replaces only the first occurrence; an empty pattern prepends. -/
def replaceFirstS (s pat repl : String) : String :=
  String.mk (replaceFirstAux pat.data repl.data s.data)

/-- The scratch filesystem: a duplicate-free list of existing paths. -/
def fsWrite (p : String) (disk : List String) : List String :=
  if p ∈ disk then disk else p :: disk

/-- Model of fs.unlinkSync / fs.remove guarded by existsSync. -/
def fsUnlink (p : String) (disk : List String) : List String := disk.erase p

/-- File categories used by the classifiers; server.cjs spells them
images/documents/audio/video and part_001 image/document/audio/video. -/
inductive Category where
  | image
  | document
  | audio
  | video
deriving DecidableEq, Repr

/-- Outcome of one external process run (exec / spawn). -/
inductive ExecOutcome where
  | ok
  | fail
  | timeout
deriving DecidableEq, Repr

/-- The multer-stored upload: original client name and stored scratch path. -/
structure UploadedFile where
  originalname : String
  storedPath : String
deriving DecidableEq, Repr

/-- A POST /api/convert request after multer ran: the optional stored file
and the optional outputFormat body field. -/
structure ConvertRequest where
  file : Option UploadedFile
  outputFormat : Option String
deriving DecidableEq, Repr

/-- Observable result of one handler run: the HTTP status of the response
sent — none when no response is ever sent, as happens when an exception
thrown inside an event callback leaves the conversion promise forever
unsettled — the scratch disk after every scheduled cleanup has run, the
path handed to res.download (none when no download was sent), and the
external programs spawned. -/
structure HandlerResult where
  status : Option Nat
  disk : List String
  delivered : Option String
  spawned : List String
deriving DecidableEq, Repr

/-- Result of one src/server.cjs converter step as seen by the awaiting
handler: a resolved output path; an exception the await re-raises into the
handler's inner catch (a throw or rejection inside the async convert call);
or an exception thrown inside an event callback, which settles nothing —
the awaited promise hangs and the handler never resumes. -/
inductive StepResult where
  | ok (outputPath : String)
  | jsError (msg : String)
  | uncaught (msg : String)
deriving DecidableEq, Repr

/-- The formats value GET /api/formats/:inputFormat computes, as res.json
serializes it: a real target list (an own row of formatMap, or the empty
list the undefined-default produces); Object.prototype, which the bracket
lookup yields for the inherited accessor key "__proto__" and which JSON
serializes as an empty object; or an inherited Object.prototype function
(e.g. for the key "constructor"), whose field JSON.stringify drops from
the response body. -/
inductive FormatsValue where
  | list (fmts : List String)
  | protoObject
  | inheritedFunction
deriving DecidableEq, Repr

/-- Result of an image-adapter format switch: which encoder runs, or the
unsupported-format error thrown. -/
inductive ImageOutcome where
  | encoded (encoder : String)
  | unsupportedError (msg : String)
deriving DecidableEq, Repr

/-- One external process invocation as configured at its call site: the
command text, the argument vector (for spawn-style calls), and the timeout
option passed, if any. -/
structure ProcInvocation where
  command : String
  args : List String
  timeoutMs : Option Nat
deriving DecidableEq, Repr

/-- The capability record probed by checkCapabilities. -/
structure Capabilities where
  sharp : Bool
  ffmpeg : Bool
  libreoffice : Bool
deriving DecidableEq, Repr

namespace ServerCjs

/-- Embeds SUPPORTED_FORMATS (src/server.cjs lines 33-38), the per-category
catalog of supported formats. -/
structure FormatCatalog where
  images : List String
  documents : List String
  audio : List String
  video : List String

/-- Embeds the SUPPORTED_FORMATS literal of src/server.cjs. -/
def SUPPORTED_FORMATS : FormatCatalog :=
  { images := ["PNG", "JPG", "JPEG", "WEBP", "GIF", "BMP", "TIFF"]
    documents := ["PDF", "DOCX", "DOC", "TXT", "RTF", "HTML", "ODT"]
    audio := ["MP3", "WAV", "FLAC", "AAC", "OGG", "M4A"]
    video := ["MP4", "AVI", "MOV", "MKV", "WEBM", "WMV"] }

/-- Embeds imageExts of getFileCategory (src/server.cjs line 161). -/
def imageExts : List String := ["png", "jpg", "jpeg", "webp", "gif", "bmp", "tiff"]

/-- Embeds docExts of getFileCategory (src/server.cjs line 162). -/
def docExts : List String := ["pdf", "doc", "docx", "txt", "rtf", "html", "odt"]

/-- Embeds audioExts of getFileCategory (src/server.cjs line 163). -/
def audioExts : List String := ["mp3", "wav", "flac", "aac", "ogg", "m4a"]

/-- Embeds videoExts of getFileCategory (src/server.cjs line 164). -/
def videoExts : List String := ["mp4", "avi", "mov", "mkv", "webm", "wmv"]

/-- Embeds path.extname(fileName).slice(1).toLowerCase() of getFileCategory
(src/server.cjs line 159). -/
def extOf (fileName : String) : String :=
  jsToLower (String.mk (extnameS fileName).data.tail)

/-- Embeds getFileCategory (src/server.cjs lines 158-172): four includes
tests in order, defaulting to documents. -/
def getFileCategory (fileName : String) : Category :=
  let ext := extOf fileName
  if ext ∈ imageExts then .image
  else if ext ∈ docExts then .document
  else if ext ∈ audioExts then .audio
  else if ext ∈ videoExts then .video
  else .document

/-- Environment describing the outcome of every external collaborator a
single src/server.cjs conversion may touch. -/
structure Env where
  sofficeInstalled : Bool
  sofficeRun : ExecOutcome
  sofficeProducesOutput : Bool
  ffmpegEnds : Bool
  sharpOk : Bool
deriving DecidableEq, Repr

/-- Embeds the switch(outputFormat.toUpperCase()) of ImageConverter.convert
(src/server.cjs lines 47-69): the six encoder cases in source order, the
default case throwing the unsupported-format error. -/
def imageSwitch (outputFormat : String) : ImageOutcome :=
  let u := jsToUpper outputFormat
  if u = "PNG" then .encoded "png"
  else if u = "JPG" ∨ u = "JPEG" then .encoded "jpeg"
  else if u = "WEBP" then .encoded "webp"
  else if u = "GIF" then .encoded "gif"
  else if u = "BMP" then .encoded "bmp"
  else if u = "TIFF" then .encoded "tiff"
  else .unsupportedError ("Unsupported image format: " ++ outputFormat)

/-- Output path computed by ImageConverter.convert and MediaConverter.convert
(src/server.cjs lines 43 and 116):
inputPath.replace(path.extname(inputPath), "." + outputFormat.toLowerCase()). -/
def convOutputPath (inputPath outputFormat : String) : String :=
  replaceFirstS inputPath (extnameS inputPath) ("." ++ jsToLower outputFormat)

/-- Directories that exist in the src/server.cjs working directory while a
request is handled: the working directory itself and uploads/, created at
startup (src/server.cjs lines 314-317). The extension-replacing output and
note paths the image and media converters compute from an extensionless
multer-stored input are prefixed rather than suffixed (JavaScript replace
of the empty extname prepends), so they fall in directories outside this
set and any write to them fails with ENOENT. -/
def existingDirs : List String := [".", "uploads"]

/-- Embeds ImageConverter.convert (src/server.cjs lines 41-73). Sharp is an
in-process library: nothing is spawned. On a supported format the encoder
writes the output file when its parent directory exists and sharp succeeds
(a toFile into a nonexistent directory, the case for every extensionless
multer-stored input, rejects with ENOENT; env.sharpOk false models any
other rejected toFile) — a rejection is re-raised by the await into the
handler's catch. The default case throws before touching any file. -/
def ImageConverter.convert (env : Env) (inputPath outputFormat : String)
    (disk : List String) : StepResult × List String × List String :=
  let outputPath := convOutputPath inputPath outputFormat
  match imageSwitch outputFormat with
  | .unsupportedError msg => (.jsError msg, disk, [])
  | .encoded _ =>
    if dirnameS outputPath ∈ existingDirs ∧ env.sharpOk then
      (.ok outputPath, fsWrite outputPath disk, [])
    else (.jsError "sharp toFile failed", disk, [])

/-- Expected output path of DocumentConverter.convert (src/server.cjs
lines 78-80). -/
def docOutputPath (inputPath outputFormat : String) : String :=
  pjoin (dirnameS inputPath) (parseNameS inputPath ++ "." ++ jsToLower outputFormat)

/-- Note path written by the DocumentConverter fallback (src/server.cjs
line 106). -/
def docNotePath (inputPath : String) : String :=
  pjoin (dirnameS inputPath) (parseNameS inputPath ++ "_conversion_note.txt")

/-- Embeds DocumentConverter.convert (src/server.cjs lines 76-110). The try
block probes soffice via which, runs the conversion command with a 30s
timeout and returns the expected output path when it exists; every failure
(probe failure, command error, timeout, missing output) reaches the catch
block, which writes a basic TXT conversion for TXT targets and otherwise a
conversion-note file, returning it as a success. Both fallback paths lie in
the directory holding the input file itself (no extension replacement is
involved), which exists for every input that was actually stored, so the
fallback writes succeed. -/
def DocumentConverter.convert (env : Env) (inputPath outputFormat : String)
    (disk : List String) : StepResult × List String × List String :=
  let outputPath := docOutputPath inputPath outputFormat
  let fallback : List String → List String →
      StepResult × List String × List String := fun d sp =>
    if jsToUpper outputFormat = "TXT" then (.ok outputPath, fsWrite outputPath d, sp)
    else (.ok (docNotePath inputPath), fsWrite (docNotePath inputPath) d, sp)
  if env.sofficeInstalled then
    match env.sofficeRun with
    | .ok =>
      let d := if env.sofficeProducesOutput then fsWrite outputPath disk else disk
      if outputPath ∈ d then (.ok outputPath, d, ["which", "soffice"])
      else fallback d ["which", "soffice"]
    | _ => fallback disk ["which", "soffice"]
  else fallback disk ["which"]

/-- Note path written by the MediaConverter error handler (src/server.cjs
line 148). -/
def mediaNotePath (inputPath : String) : String :=
  replaceFirstS inputPath (extnameS inputPath) "_conversion_note.txt"

/-- Embeds MediaConverter.convert (src/server.cjs lines 114-155). The format
switch only selects codecs (the default case passes the format through to
ffmpeg), so every run spawns ffmpeg. The end event — possible only when
ffmpeg could actually write the output, i.e. the output path's parent
directory exists — resolves with the output path. Otherwise the error
event fires and writeFileSync writes the conversion-note file: into an
existing directory it succeeds and the promise resolves with the note
path, but for a note path in a nonexistent directory (the case for every
extensionless multer-stored input) writeFileSync throws ENOENT inside the
event callback, so neither resolve nor reject ever runs — the promise
stays pending and no response is ever sent. -/
def MediaConverter.convert (env : Env) (inputPath outputFormat : String)
    (disk : List String) : StepResult × List String × List String :=
  let outputPath := convOutputPath inputPath outputFormat
  let notePath := mediaNotePath inputPath
  if dirnameS outputPath ∈ existingDirs ∧ env.ffmpegEnds then
    (.ok outputPath, fsWrite outputPath disk, ["ffmpeg"])
  else if dirnameS notePath ∈ existingDirs then
    (.ok notePath, fsWrite notePath disk, ["ffmpeg"])
  else
    (.uncaught "ENOENT thrown by writeFileSync in the ffmpeg error callback",
      disk, ["ffmpeg"])

/-- Embeds the POST /api/convert handler of src/server.cjs (lines 185-266).
Multer has already stored the upload when the handler runs; the handler
validates the request, dispatches on getFileCategory, checks the produced
path exists, downloads it and then deletes input and output (the setTimeout
cleanup is modelled as having run), or on a conversion error deletes only
the input and answers 500. The early validation returns delete nothing;
and when the awaited converter promise never settles (the media uncaught
throw), the handler never resumes: no response is sent and no cleanup of
any kind runs. -/
def convertHandler (env : Env) (req : ConvertRequest) : HandlerResult :=
  match req.file with
  | none => { status := some 400, disk := [], delivered := none, spawned := [] }
  | some f =>
    let disk0 := fsWrite f.storedPath []
    match req.outputFormat with
    | none => { status := some 400, disk := disk0, delivered := none, spawned := [] }
    | some outputFormat =>
      let category := getFileCategory f.originalname
      let step : StepResult × List String × List String :=
        match category with
        | .image => ImageConverter.convert env f.storedPath outputFormat disk0
        | .document => DocumentConverter.convert env f.storedPath outputFormat disk0
        | .audio => MediaConverter.convert env f.storedPath outputFormat disk0
        | .video => MediaConverter.convert env f.storedPath outputFormat disk0
      match step with
      | (.ok outputPath, disk1, sp) =>
        if outputPath ∈ disk1 then
          { status := some 200
            disk := fsUnlink outputPath (fsUnlink f.storedPath disk1)
            delivered := some outputPath
            spawned := sp }
        else
          { status := some 500, disk := fsUnlink f.storedPath disk1
            delivered := none, spawned := sp }
      | (.jsError _, disk1, sp) =>
        { status := some 500, disk := fsUnlink f.storedPath disk1
          delivered := none, spawned := sp }
      | (.uncaught _, disk1, sp) =>
        { status := none, disk := disk1, delivered := none, spawned := sp }

/-- Embeds the execAsync call of DocumentConverter.convert (src/server.cjs
lines 87-88): a soffice command string run with a 30000 ms timeout option. -/
def documentInvocation (outputFormat inputPath outputDir : String) : ProcInvocation :=
  { command := "soffice --headless --convert-to " ++ jsToLower outputFormat
      ++ " \"" ++ inputPath ++ "\" --outdir \"" ++ outputDir ++ "\""
    args := []
    timeoutMs := some 30000 }

end ServerCjs

end Convertz

namespace Convertz

namespace Part000

/-- Embeds the exec call of convertWithLibreOffice (src/unnamed/part_000
lines 125-136): a libreoffice command string run with a 30000 ms timeout
option (and a HOME/TMPDIR environment, not modelled). -/
def documentInvocation (outputFormat outputDir tempInputPath : String) : ProcInvocation :=
  { command := "libreoffice --headless --convert-to " ++ outputFormat
      ++ " --outdir \"" ++ outputDir ++ "\" \"" ++ tempInputPath ++ "\""
    args := []
    timeoutMs := some 30000 }

/-- Embeds the output-discovery logic of convertWithLibreOffice
(src/unnamed/part_000 lines 150-166), given the directory listing of
outputDir: first the exact expected baseName.outputFormat entry, then the
first directory entry whose name starts with baseName, else the
output-file-not-found rejection. -/
def discoverOutput (outputDir inputPath outputFormat : String)
    (dirFiles : List String) : Except String String :=
  let baseNameWithoutExt := parseNameS (basenameS inputPath)
  let expectedName := baseNameWithoutExt ++ "." ++ outputFormat
  if expectedName ∈ dirFiles then .ok (pjoin outputDir expectedName)
  else
    match dirFiles.find? (fun f => startsWithS f baseNameWithoutExt) with
    | some f => .ok (pjoin outputDir f)
    | none => .error "LibreOffice conversion completed but output file not found"

/-- One row of the formatMap object literal. -/
def fmRow (k : String) (v : List String) : String × List String := (k, v)

/-- The image rows of the formatMap object of GET /api/formats/:inputFormat
(src/unnamed/part_000 lines 292-298): sharp rows, never capability-gated. -/
def imageRows : List (String × List String) :=
  [ fmRow "jpg" ["png", "webp", "tiff", "bmp", "jpeg"]
  , fmRow "jpeg" ["png", "webp", "tiff", "bmp", "jpg"]
  , fmRow "png" ["jpg", "jpeg", "webp", "tiff", "bmp"]
  , fmRow "webp" ["jpg", "jpeg", "png", "tiff", "bmp"]
  , fmRow "tiff" ["jpg", "jpeg", "png", "webp", "bmp"]
  , fmRow "bmp" ["jpg", "jpeg", "png", "webp", "tiff"] ]

/-- The video and audio rows of formatMap (src/unnamed/part_000
lines 300-312), each emptied when ffmpeg is unavailable. -/
def mediaRows (ffmpeg : Bool) : List (String × List String) :=
  [ fmRow "mp4" (if ffmpeg then ["avi", "mov", "wmv", "flv"] else [])
  , fmRow "avi" (if ffmpeg then ["mp4", "mov", "wmv", "flv"] else [])
  , fmRow "mov" (if ffmpeg then ["mp4", "avi", "wmv", "flv"] else [])
  , fmRow "wmv" (if ffmpeg then ["mp4", "avi", "mov", "flv"] else [])
  , fmRow "flv" (if ffmpeg then ["mp4", "avi", "mov", "wmv"] else [])
  , fmRow "mp3" (if ffmpeg then ["wav", "ogg", "aac", "m4a"] else [])
  , fmRow "wav" (if ffmpeg then ["mp3", "ogg", "aac", "m4a"] else [])
  , fmRow "ogg" (if ffmpeg then ["mp3", "wav", "aac", "m4a"] else [])
  , fmRow "aac" (if ffmpeg then ["mp3", "wav", "ogg", "m4a"] else [])
  , fmRow "m4a" (if ffmpeg then ["mp3", "wav", "ogg", "aac"] else []) ]

/-- The document rows of formatMap (src/unnamed/part_000 lines 314-326),
each emptied when libreoffice is unavailable. -/
def documentRows (libreoffice : Bool) : List (String × List String) :=
  [ fmRow "pdf" (if libreoffice then ["docx", "odt", "txt", "rtf"] else [])
  , fmRow "doc" (if libreoffice then ["pdf", "docx", "odt", "txt", "rtf"] else [])
  , fmRow "docx" (if libreoffice then ["pdf", "doc", "odt", "txt", "rtf"] else [])
  , fmRow "xls" (if libreoffice then ["xlsx", "ods", "csv"] else [])
  , fmRow "xlsx" (if libreoffice then ["xls", "ods", "csv"] else [])
  , fmRow "ppt" (if libreoffice then ["pptx", "odp", "pdf"] else [])
  , fmRow "pptx" (if libreoffice then ["ppt", "odp", "pdf"] else [])
  , fmRow "odt" (if libreoffice then ["pdf", "doc", "docx", "txt", "rtf"] else [])
  , fmRow "ods" (if libreoffice then ["xls", "xlsx", "csv"] else [])
  , fmRow "odp" (if libreoffice then ["ppt", "pptx", "pdf"] else [])
  , fmRow "rtf" (if libreoffice then ["pdf", "doc", "docx", "odt", "txt"] else [])
  , fmRow "txt" (if libreoffice then ["pdf", "doc", "docx", "odt", "rtf"] else []) ]

/-- Embeds the formatMap object of GET /api/formats/:inputFormat
(src/unnamed/part_000 lines 291-327) as an association list, its rows in
source order (image, then video and audio, then document). -/
def formatTable (caps : Capabilities) : List (String × List String) :=
  imageRows ++ mediaRows caps.ffmpeg ++ documentRows caps.libreoffice

/-- The keys of formatMap, in source order. -/
def formatKeys : List String :=
  [ "jpg", "jpeg", "png", "webp", "tiff", "bmp"
  , "mp4", "avi", "mov", "wmv", "flv"
  , "mp3", "wav", "ogg", "aac", "m4a"
  , "pdf", "doc", "docx", "xls", "xlsx", "ppt", "pptx", "odt", "ods", "odp", "rtf", "txt" ]

/-- The image-row keys of formatMap (sharp rows, never capability-gated). -/
def imageKeys : List String := ["jpg", "jpeg", "png", "webp", "tiff", "bmp"]

/-- The video and audio row keys of formatMap (ffmpeg-gated rows). -/
def mediaKeys : List String :=
  ["mp4", "avi", "mov", "wmv", "flv", "mp3", "wav", "ogg", "aac", "m4a"]

/-- The document row keys of formatMap (libreoffice-gated rows). -/
def documentKeys : List String :=
  ["pdf", "doc", "docx", "xls", "xlsx", "ppt", "pptx", "odt", "ods", "odp", "rtf", "txt"]

/-- The property names a JavaScript object literal inherits from
Object.prototype, which bracket lookup consults when the requested key is
not an own key of the object: the "__proto__" accessor yields
Object.prototype itself (an object, hence truthy), and every other
inherited property is a function (also truthy). -/
def objectProtoProps : List String :=
  [ "constructor", "hasOwnProperty", "isPrototypeOf", "propertyIsEnumerable"
  , "toLocaleString", "toString", "valueOf", "__defineGetter__"
  , "__defineSetter__", "__lookupGetter__", "__lookupSetter__", "__proto__" ]

/-- Embeds the JavaScript expression formatMap[key] || [] of
GET /api/formats/:inputFormat (src/unnamed/part_000 line 329): an own key
of the object literal yields its row; otherwise bracket lookup walks the
prototype chain, where "__proto__" yields Object.prototype and the other
Object.prototype property names yield inherited functions — both truthy,
so the || [] default does not replace them; only a miss everywhere gives
undefined, which || [] turns into the empty list. -/
def bracketLookup (caps : Capabilities) (key : String) : FormatsValue :=
  match (formatTable caps).lookup key with
  | some row => .list row
  | none =>
    if key = "__proto__" then .protoObject
    else if key ∈ objectProtoProps then .inheritedFunction
    else .list []

/-- Embeds the body of GET /api/formats/:inputFormat (src/unnamed/part_000
lines 287-331): formatMap[inputFormat.toLowerCase()] || [], always answered
with res.json (HTTP 200, whatever the formats value serializes to). -/
def formatsEndpoint (caps : Capabilities) (inputFormat : String) : Nat × FormatsValue :=
  (200, bracketLookup caps (jsToLower inputFormat))

end Part000

namespace Part001

/-- Embeds the image extension list of getFileCategory
(src/unnamed/part_001 line 50). -/
def imageExts : List String :=
  ["jpg", "jpeg", "png", "webp", "gif", "bmp", "tiff", "svg", "ico"]

/-- Embeds the document extension list of getFileCategory
(src/unnamed/part_001 line 51). -/
def documentExts : List String := ["pdf", "docx", "doc", "txt", "rtf", "odt", "pages"]

/-- Embeds the audio extension list of getFileCategory
(src/unnamed/part_001 line 52). -/
def audioExts : List String := ["mp3", "wav", "flac", "aac", "ogg", "m4a", "wma"]

/-- Embeds the video extension list of getFileCategory
(src/unnamed/part_001 line 53). -/
def videoExts : List String := ["mp4", "avi", "mov", "mkv", "wmv", "flv", "webm"]

/-- Embeds path.extname(filename).toLowerCase().substring(1) of
getFileCategory (src/unnamed/part_001 line 47). -/
def extOf (filename : String) : String :=
  String.mk (jsToLower (extnameS filename)).data.tail

/-- Embeds getFileCategory (src/unnamed/part_001 lines 46-62): the
categories object is iterated in insertion order (image, document, audio,
video) and the first list containing the extension wins; the fallback is
document. -/
def getFileCategory (filename : String) : Category :=
  let ext := extOf filename
  if ext ∈ imageExts then .image
  else if ext ∈ documentExts then .document
  else if ext ∈ audioExts then .audio
  else if ext ∈ videoExts then .video
  else .document

/-- Environment describing the external collaborators of one
src/unnamed/part_001 conversion. -/
structure Env where
  sharpOk : Bool
  ffmpegEnds : Bool
  loSpawnFails : Bool
  loExitCode : Nat
  loProducesFile : Bool
deriving DecidableEq, Repr

/-- Embeds the switch of convertImage (src/unnamed/part_001 lines 65-83):
every case, including the default, selects an encoder; bmp is re-encoded
with the png encoder and the default case also uses the png encoder. -/
def convertImageSwitch (format : String) : ImageOutcome :=
  let l := jsToLower format
  if l = "jpg" ∨ l = "jpeg" then .encoded "jpeg"
  else if l = "png" then .encoded "png"
  else if l = "webp" then .encoded "webp"
  else if l = "bmp" then .encoded "png"
  else if l = "tiff" then .encoded "tiff"
  else .encoded "png"

/-- Embeds convertImage (src/unnamed/part_001 lines 65-83) as a disk
transformer: every branch of the switch (see convertImageSwitch), the
default included, calls toFile(outputPath), so the disk effect does not
depend on the format — the selected encoder writes outputPath unless sharp
fails. -/
def convertImage (env : Env) (outputPath : String)
    (disk : List String) : Except String Unit × List String × List String :=
  if env.sharpOk then (.ok (), fsWrite outputPath disk, [])
  else (.error "sharp conversion failed", disk, [])

/-- Embeds convertMedia (src/unnamed/part_001 lines 86-110): ffmpeg is run
on the input; the end event resolves after writing outputPath, the error
event rejects the promise — no note file is ever written. -/
def convertMedia (env : Env) (outputPath : String)
    (disk : List String) : Except String Unit × List String × List String :=
  if env.ffmpegEnds then (.ok (), fsWrite outputPath disk, ["ffmpeg"])
  else (.error "ffmpeg error", disk, ["ffmpeg"])

/-- Embeds convertDocument (src/unnamed/part_001 lines 113-147): libreoffice
is spawned (with no timeout); a spawn error rejects; exit code 0 checks the
generated inputName.format file and moves it onto outputPath, rejecting with
the output-file-not-found error when it is absent; a non-zero exit code
rejects with the failure message. -/
def convertDocument (env : Env) (inputPath outputPath format : String)
    (disk : List String) : Except String Unit × List String × List String :=
  let outputDir := dirnameS outputPath
  let inputName := parseNameS inputPath
  if env.loSpawnFails then (.error "spawn libreoffice ENOENT", disk, ["libreoffice"])
  else if env.loExitCode = 0 then
    let generatedFile := pjoin outputDir (inputName ++ "." ++ jsToLower format)
    let d := if env.loProducesFile then fsWrite generatedFile disk else disk
    if generatedFile ∈ d then
      (.ok (), fsWrite outputPath (fsUnlink generatedFile d), ["libreoffice"])
    else
      (.error "Conversion failed - output file not found", d, ["libreoffice"])
  else
    (.error ("LibreOffice conversion failed with code " ++ toString env.loExitCode),
      disk, ["libreoffice"])

/-- The uploads directory of src/unnamed/part_001 (path.join(__dirname,
"uploads"), modelled relative). -/
def uploadsDir : String := "uploads"

/-- The outputs directory of src/unnamed/part_001 (path.join(__dirname,
"outputs"), modelled relative). -/
def outputsDir : String := "outputs"

/-- Embeds the multer diskStorage filename rule (src/unnamed/part_001
lines 30-38): the stored name is uuid-originalname inside uploadsDir. -/
def storedUploadPath (uuid originalname : String) : String :=
  pjoin uploadsDir (uuid ++ "-" ++ originalname)

/-- Embeds the outputPath computation of the /api/convert handler
(src/unnamed/part_001 lines 186-187): outputsDir joined with the original
base name and the raw requested format — no per-job token. -/
def outputArtifactPath (originalname outputFormat : String) : String :=
  pjoin outputsDir (parseNameS originalname ++ "." ++ outputFormat)

/-- The scratch paths allocated to one job: the stored upload input and the
output artifact path. -/
def jobScratchPaths (uuid originalname outputFormat : String) : List String :=
  [storedUploadPath uuid originalname, outputArtifactPath originalname outputFormat]

/-- Embeds the POST /api/convert handler of src/unnamed/part_001
(lines 173-243): validation, classification, dispatch, the existsSync check,
then res.download with cleanup of input and output, or on a conversion error
cleanup of the input only and a 500 answer. -/
def convertHandler (env : Env) (req : ConvertRequest) : HandlerResult :=
  match req.file with
  | none => { status := some 400, disk := [], delivered := none, spawned := [] }
  | some f =>
    let disk0 := fsWrite f.storedPath []
    match req.outputFormat with
    | none => { status := some 400, disk := disk0, delivered := none, spawned := [] }
    | some outputFormat =>
      let category := getFileCategory f.originalname
      let outputPath := outputArtifactPath f.originalname outputFormat
      let step : Except String Unit × List String × List String :=
        match category with
        | .image => convertImage env outputPath disk0
        | .audio => convertMedia env outputPath disk0
        | .video => convertMedia env outputPath disk0
        | .document => convertDocument env f.storedPath outputPath outputFormat disk0
      match step with
      | (.ok _, disk1, sp) =>
        if outputPath ∈ disk1 then
          { status := some 200
            disk := fsUnlink outputPath (fsUnlink f.storedPath disk1)
            delivered := some outputPath
            spawned := sp }
        else
          { status := some 500, disk := fsUnlink f.storedPath disk1
            delivered := none, spawned := sp }
      | (.error _, disk1, sp) =>
        { status := some 500, disk := fsUnlink f.storedPath disk1
          delivered := none, spawned := sp }

/-- Embeds the spawn call of convertDocument (src/unnamed/part_001
lines 119-126): program libreoffice with six arguments and no options
object, hence no timeout. -/
def documentInvocation (format outputDir inputPath : String) : ProcInvocation :=
  { command := "libreoffice"
    args := ["--headless", "--convert-to", jsToLower format, "--outdir", outputDir, inputPath]
    timeoutMs := none }

end Part001

end Convertz

namespace Convertz

/-- C1: evaluation at the failing input. A POST /api/convert request whose
multipart file multer has already stored, but whose body lacks the
outputFormat field, exits src/server.cjs through the early-validation
return res.status(400) (line 193): no cleanup runs on that path and the
stored upload uploads/abc123 is still on disk when the call completes,
violating the cleanup invariant. -/
theorem c1_missing_output_format_leaks_upload :
    (ServerCjs.convertHandler ⟨true, .ok, true, true, true⟩
        { file := some ⟨"photo.png", "uploads/abc123"⟩, outputFormat := none })
      = { status := some 400, disk := ["uploads/abc123"], delivered := none, spawned := [] } := by
  decide

/-- C2: counterexample. Converting song.mp3 to target xyz — the pair
(audio, XYZ) is outside the support matrix, XYZ not being in
SUPPORTED_FORMATS.audio — is not rejected before dispatch and no
UnsupportedConversion failure is ever produced: the media adapter is
invoked and ffmpeg is spawned with the unsupported format; ffmpeg then
errors mid-conversion, the error callback's note write throws ENOENT (the
note path of the extensionless stored upload lies in a nonexistent
directory), and the request ends with no response at all. -/
theorem c2_counterexample :
    ("XYZ" ∉ ServerCjs.SUPPORTED_FORMATS.audio)
    ∧ ServerCjs.getFileCategory "song.mp3" = .audio
    ∧ (ServerCjs.convertHandler ⟨true, .ok, true, false, true⟩
        { file := some ⟨"song.mp3", "uploads/u1"⟩, outputFormat := some "xyz" }).spawned
        = ["ffmpeg"]
    ∧ (ServerCjs.convertHandler ⟨true, .ok, true, false, true⟩
        { file := some ⟨"song.mp3", "uploads/u1"⟩, outputFormat := some "xyz" }).status
        = none := by
  decide

/-- C3: counterexample. In the src/unnamed/part_001 variant a media backend
failure mid-conversion (the ffmpeg error event) does not produce any
placeholder note: the handler answers HTTP 500 and the final disk holds no
file at all, contradicting the claim that such failures complete as a
successful download of a note file. -/
theorem c3_counterexample :
    (Part001.convertHandler ⟨true, false, false, 0, true⟩
        { file := some ⟨"song.mp3", "uploads/u1-song.mp3"⟩, outputFormat := some "wav" })
      = { status := some 500, disk := [], delivered := none, spawned := ["ffmpeg"] } := by
  decide

/-- C4: counterexample. The src/unnamed/part_001 document adapter spawns
libreoffice with no timeout option, so not every document-conversion
invocation in the repository enforces the ~30 s bound. -/
theorem c4_counterexample :
    (Part001.documentInvocation "pdf" "outputs" "uploads/u1-report.docx").timeoutMs = none
    ∧ ¬ (∀ inv ∈ [ServerCjs.documentInvocation "pdf" "uploads/j1" "uploads",
                  Part000.documentInvocation "pdf" "uploads" "temp/t1/j1",
                  Part001.documentInvocation "pdf" "outputs" "uploads/u1-report.docx"],
          inv.timeoutMs = some 30000) := by
  decide

/-- C5: counterexample. The src/server.cjs document adapter does not scan
the output directory: with the expected uploads/j1.pdf absent and a
prefix-matching file j1.PDF present, DocumentConverter.convert returns the
conversion-note fallback instead of the prefix match, so the claimed
two-step discovery does not describe this adapter. -/
theorem c5_counterexample :
    startsWithS "j1.PDF" "j1" = true
    ∧ ("uploads/j1.pdf" ∉ ["uploads/j1.PDF", "uploads/j1"])
    ∧ (ServerCjs.DocumentConverter.convert ⟨true, .ok, false, true, true⟩ "uploads/j1" "pdf"
        ["uploads/j1.PDF", "uploads/j1"]).1 = .ok "uploads/j1_conversion_note.txt" := by
  decide

/-- C8: counterexample. The src/server.cjs image adapter's switch has a
default case that throws: target xyz yields the unsupported-format error
and the whole /api/convert request fails with HTTP 500, so the image
convert operation does raise an unsupported-format error for targets with
no explicit case. -/
theorem c8_counterexample :
    ServerCjs.imageSwitch "xyz" = .unsupportedError "Unsupported image format: xyz"
    ∧ (ServerCjs.convertHandler ⟨true, .ok, true, true, true⟩
        { file := some ⟨"pic.png", "uploads/u2"⟩, outputFormat := some "xyz" }).status
        = some 500 := by
  decide

/-- C9: counterexample. Two distinct src/unnamed/part_001 jobs (different
random tokens) converting photo.png to webp share the scratch output path
outputs/photo.webp: the output artifact path carries no per-job token, so
the jobs' scratch paths are not distinct. -/
theorem c9_counterexample :
    Part001.jobScratchPaths "1111" "photo.png" "webp"
      ≠ Part001.jobScratchPaths "2222" "photo.png" "webp"
    ∧ "outputs/photo.webp" ∈ Part001.jobScratchPaths "1111" "photo.png" "webp"
    ∧ "outputs/photo.webp" ∈ Part001.jobScratchPaths "2222" "photo.png" "webp" := by
  decide

end Convertz

namespace Convertz

/-- A freshly written path is on the disk. -/
theorem selfMemFsWrite (p : String) (d : List String) : p ∈ fsWrite p d := by
  unfold fsWrite
  split
  · assumption
  · exact List.mem_cons_self p d

/-- An association-list lookup misses every key absent from the key column. -/
theorem lookupEqNoneOfNotMem {α : Type} (s : String) :
    ∀ l : List (String × α), s ∉ l.map Prod.fst → l.lookup s = none := by
  intro l
  induction l with
  | nil => intro _; rfl
  | cons kv tl ih =>
    intro h
    obtain ⟨k, v⟩ := kv
    simp only [List.map_cons, List.mem_cons] at h
    push_neg at h
    have hne : (s == k) = false := beq_eq_false_iff_ne.mpr h.1
    simp only [List.lookup, hne]
    exact ih h.2

/-- Unsupported targets reach the default case of the src/server.cjs image
switch: when the upper-cased format is outside the images catalog, every
explicit case test fails and the unsupported-format error is thrown. -/
theorem imageSwitchDefault (fmt : String)
    (h : jsToUpper fmt ∉ ServerCjs.SUPPORTED_FORMATS.images) :
    ServerCjs.imageSwitch fmt = .unsupportedError ("Unsupported image format: " ++ fmt) := by
  simp only [ServerCjs.SUPPORTED_FORMATS, List.mem_cons, List.not_mem_nil, or_false] at h
  push_neg at h
  obtain ⟨h1, h2, h3, h4, h5, h6, h7⟩ := h
  simp [ServerCjs.imageSwitch, h1, h2, h3, h4, h5, h6, h7]

end Convertz

namespace Convertz

/-- C6: classification looks the lower-cased stripped extension up in four
pairwise-disjoint static extension sets — in both classifier variants
(src/server.cjs getFileCategory and src/unnamed/part_001 getFileCategory) —
and any file name whose extension lies in none of the four sets, files with
no extension included, is classified as a document. -/
theorem c6_classification :
    ((∀ x ∈ ServerCjs.imageExts,
        x ∉ ServerCjs.docExts ∧ x ∉ ServerCjs.audioExts ∧ x ∉ ServerCjs.videoExts)
      ∧ (∀ x ∈ ServerCjs.docExts, x ∉ ServerCjs.audioExts ∧ x ∉ ServerCjs.videoExts)
      ∧ (∀ x ∈ ServerCjs.audioExts, x ∉ ServerCjs.videoExts))
    ∧ ((∀ x ∈ Part001.imageExts,
        x ∉ Part001.documentExts ∧ x ∉ Part001.audioExts ∧ x ∉ Part001.videoExts)
      ∧ (∀ x ∈ Part001.documentExts, x ∉ Part001.audioExts ∧ x ∉ Part001.videoExts)
      ∧ (∀ x ∈ Part001.audioExts, x ∉ Part001.videoExts))
    ∧ (∀ fn : String, ServerCjs.extOf fn ∉ ServerCjs.imageExts →
        ServerCjs.extOf fn ∉ ServerCjs.docExts → ServerCjs.extOf fn ∉ ServerCjs.audioExts →
        ServerCjs.extOf fn ∉ ServerCjs.videoExts → ServerCjs.getFileCategory fn = .document)
    ∧ (∀ fn : String, Part001.extOf fn ∉ Part001.imageExts →
        Part001.extOf fn ∉ Part001.documentExts → Part001.extOf fn ∉ Part001.audioExts →
        Part001.extOf fn ∉ Part001.videoExts → Part001.getFileCategory fn = .document) := by
  refine ⟨by decide, by decide, ?_, ?_⟩
  · intro fn h1 h2 h3 h4
    simp [ServerCjs.getFileCategory, h1, h2, h3, h4]
  · intro fn h1 h2 h3 h4
    simp [Part001.getFileCategory, h1, h2, h3, h4]

/-- C6 witness: archive.zip (unknown extension) and README (no extension)
both classify as documents, through the theorem. -/
theorem c6_classification_witness :
    ServerCjs.getFileCategory "archive.zip" = .document
    ∧ Part001.getFileCategory "README" = .document :=
  ⟨c6_classification.2.2.1 "archive.zip" (by decide) (by decide) (by decide) (by decide),
   c6_classification.2.2.2 "README" (by decide) (by decide) (by decide) (by decide)⟩

/-- C7: in the GET /api/formats/:inputFormat surface of src/unnamed/part_000,
every ffmpeg-gated source format answers the empty target list when ffmpeg
is probed unavailable, every libreoffice-gated source format answers the
empty list when libreoffice is unavailable, image rows are identical under
all capability records, document rows do not depend on the ffmpeg
capability, and media rows do not depend on the libreoffice capability. -/
theorem c7_capability_gating :
    (∀ (l : Bool) (fmt : String), fmt ∈ Part000.mediaKeys →
        Part000.formatsEndpoint ⟨true, false, l⟩ fmt = (200, .list []))
    ∧ (∀ (f : Bool) (fmt : String), fmt ∈ Part000.documentKeys →
        Part000.formatsEndpoint ⟨true, f, false⟩ fmt = (200, .list []))
    ∧ (∀ (c₁ c₂ : Capabilities) (fmt : String), fmt ∈ Part000.imageKeys →
        Part000.formatsEndpoint c₁ fmt = Part000.formatsEndpoint c₂ fmt)
    ∧ (∀ (f₁ f₂ l : Bool) (fmt : String), fmt ∈ Part000.documentKeys →
        Part000.formatsEndpoint ⟨true, f₁, l⟩ fmt = Part000.formatsEndpoint ⟨true, f₂, l⟩ fmt)
    ∧ (∀ (f l₁ l₂ : Bool) (fmt : String), fmt ∈ Part000.mediaKeys →
        Part000.formatsEndpoint ⟨true, f, l₁⟩ fmt = Part000.formatsEndpoint ⟨true, f, l₂⟩ fmt) := by
  refine ⟨?_, ?_, ?_, ?_, ?_⟩
  · intro l fmt hm
    fin_cases hm <;> rfl
  · intro f fmt hm
    fin_cases hm <;> rfl
  · intro c₁ c₂ fmt hm
    fin_cases hm <;> rfl
  · intro f₁ f₂ l fmt hm
    fin_cases hm <;> rfl
  · intro f l₁ l₂ fmt hm
    fin_cases hm <;> rfl

/-- C7 witness: with ffmpeg unavailable mp4 gets no targets, with
libreoffice unavailable pdf gets no targets, and the jpg row is the same
under the all-false and all-true capability records, through the theorem. -/
theorem c7_capability_gating_witness :
    Part000.formatsEndpoint ⟨true, false, true⟩ "mp4" = (200, .list [])
    ∧ Part000.formatsEndpoint ⟨true, true, false⟩ "pdf" = (200, .list [])
    ∧ Part000.formatsEndpoint ⟨true, false, false⟩ "jpg"
        = Part000.formatsEndpoint ⟨true, true, true⟩ "jpg" :=
  ⟨c7_capability_gating.1 true "mp4" (by decide),
   c7_capability_gating.2.1 true "pdf" (by decide),
   c7_capability_gating.2.2.1 ⟨true, false, false⟩ ⟨true, true, true⟩ "jpg" (by decide)⟩

/-- C10: counterexample. JavaScript bracket lookup consults the prototype
chain: the inputs __proto__ and constructor are not keys of the static
formatMap, yet GET /api/formats/:inputFormat answers them with HTTP 200
and a formats value that is not an empty list — Object.prototype
(serialized as an empty object) for __proto__, an inherited function
(whose field JSON drops) for constructor. -/
theorem c10_counterexample :
    ("__proto__" ∉ Part000.formatKeys)
    ∧ ("constructor" ∉ Part000.formatKeys)
    ∧ Part000.formatsEndpoint ⟨true, true, true⟩ "__proto__" = (200, .protoObject)
    ∧ Part000.formatsEndpoint ⟨true, true, true⟩ "constructor" = (200, .inheritedFunction)
    ∧ (∀ fmts : List String, FormatsValue.protoObject ≠ .list fmts) := by
  refine ⟨by decide, by decide, by decide, by decide, fun fmts h => by cases h⟩

/-- C10 (amended): GET /api/formats/:inputFormat of src/unnamed/part_000
always answers HTTP 200, never an error status or a crash; for every input
format whose lower-casing is neither an own key of the static formatMap nor
an Object.prototype property name, the formats value is the empty list; but
for the inherited prototype names the truthy prototype-chain hit survives
the || [] default, so __proto__ answers with Object.prototype and the other
inherited names answer with a function the JSON serializer drops. -/
theorem c10_amended :
    (∀ (caps : Capabilities) (inputFormat : String),
        (Part000.formatsEndpoint caps inputFormat).1 = 200)
    ∧ (∀ (caps : Capabilities) (inputFormat : String),
        jsToLower inputFormat ∉ Part000.formatKeys →
        jsToLower inputFormat ∉ Part000.objectProtoProps →
        Part000.formatsEndpoint caps inputFormat = (200, .list []))
    ∧ (∀ caps : Capabilities,
        Part000.formatsEndpoint caps "__proto__" = (200, .protoObject)
        ∧ Part000.formatsEndpoint caps "constructor" = (200, .inheritedFunction)) := by
  have hkeys : ∀ caps : Capabilities,
      (Part000.formatTable caps).map Prod.fst = Part000.formatKeys := fun _ => rfl
  refine ⟨fun caps inputFormat => rfl, ?_, ?_⟩
  · intro caps inputFormat h1 h2
    have hnone : (Part000.formatTable caps).lookup (jsToLower inputFormat) = none := by
      apply lookupEqNoneOfNotMem
      rw [hkeys]
      exact h1
    have hne : jsToLower inputFormat ≠ "__proto__" := by
      intro he
      exact h2 (he ▸ (by decide : ("__proto__" : String) ∈ Part000.objectProtoProps))
    simp [Part000.formatsEndpoint, Part000.bracketLookup, hnone, hne, h2]
  · intro caps
    have hp : (Part000.formatTable caps).lookup (jsToLower "__proto__") = none := by
      apply lookupEqNoneOfNotMem
      rw [hkeys]
      decide
    have hc : (Part000.formatTable caps).lookup (jsToLower "constructor") = none := by
      apply lookupEqNoneOfNotMem
      rw [hkeys]
      decide
    constructor
    · simp only [Part000.formatsEndpoint, Part000.bracketLookup, hp]
      decide
    · simp only [Part000.formatsEndpoint, Part000.bracketLookup, hc]
      decide

/-- C10 witness: the unknown input format ZIP answers 200 with the empty
list, and __proto__ answers 200 with Object.prototype, through the
theorem. -/
theorem c10_amended_witness :
    Part000.formatsEndpoint ⟨true, true, true⟩ "ZIP" = (200, .list [])
    ∧ Part000.formatsEndpoint ⟨false, false, false⟩ "__proto__" = (200, .protoObject) :=
  ⟨c10_amended.2.1 ⟨true, true, true⟩ "ZIP" (by decide) (by decide),
   (c10_amended.2.2 ⟨false, false, false⟩).1⟩

end Convertz

namespace Convertz

/-- Every run of the src/server.cjs media adapter spawns ffmpeg, whatever
the requested target format and whatever then happens to the run. -/
theorem mediaSpawned (env : ServerCjs.Env) (inputPath outputFormat : String)
    (disk : List String) :
    (ServerCjs.MediaConverter.convert env inputPath outputFormat disk).2.2 = ["ffmpeg"] := by
  simp only [ServerCjs.MediaConverter.convert]
  repeat' split
  all_goals rfl

/-- C2 (amended): src/server.cjs performs no support-matrix check before
dispatch. For every audio- or video-classified upload the media adapter is
invoked and ffmpeg is spawned whatever the requested target format is — an
unsupported pair surfaces only mid-conversion, inside the ffmpeg run; for
an image-classified upload whose upper-cased target is outside the images
catalog, the unsupported pair is discovered inside the image adapter (the
switch default throws) — the request fails 500 with no external process
spawned, sharp being in-process. -/
theorem c2_amended :
    (∀ (env : ServerCjs.Env) (f : UploadedFile) (fmt : String),
        (ServerCjs.getFileCategory f.originalname = .audio
          ∨ ServerCjs.getFileCategory f.originalname = .video) →
        (ServerCjs.convertHandler env { file := some f, outputFormat := some fmt }).spawned
          = ["ffmpeg"])
    ∧ (∀ fmt : String, jsToUpper fmt ∉ ServerCjs.SUPPORTED_FORMATS.images →
        ServerCjs.imageSwitch fmt = .unsupportedError ("Unsupported image format: " ++ fmt))
    ∧ (∀ (env : ServerCjs.Env) (f : UploadedFile) (fmt : String),
        ServerCjs.getFileCategory f.originalname = .image →
        jsToUpper fmt ∉ ServerCjs.SUPPORTED_FORMATS.images →
        (ServerCjs.convertHandler env { file := some f, outputFormat := some fmt }).status
          = some 500
        ∧ (ServerCjs.convertHandler env { file := some f, outputFormat := some fmt }).spawned
            = []) := by
  refine ⟨?_, fun fmt h => imageSwitchDefault fmt h, ?_⟩
  · intro env f fmt h
    have hsp := mediaSpawned env f.storedPath fmt (fsWrite f.storedPath [])
    rcases h with h | h <;>
    · simp only [ServerCjs.convertHandler, h]
      split <;> rename_i heq <;> rw [heq] at hsp
      · split <;> exact hsp
      · exact hsp
      · exact hsp
  · intro env f fmt hcat hfmt
    have hsw := imageSwitchDefault fmt hfmt
    constructor <;>
      simp [ServerCjs.convertHandler, hcat, ServerCjs.ImageConverter.convert, hsw]

/-- C2 witness: song.mp3 to wav spawns ffmpeg, and pic.png to zzz fails 500
with nothing spawned, through the theorem. -/
theorem c2_amended_witness :
    (ServerCjs.convertHandler ⟨true, .ok, true, true, true⟩
        { file := some ⟨"song.mp3", "uploads/u1"⟩, outputFormat := some "wav" }).spawned
      = ["ffmpeg"]
    ∧ (ServerCjs.convertHandler ⟨true, .ok, true, true, true⟩
        { file := some ⟨"pic.png", "uploads/u2"⟩, outputFormat := some "zzz" }).status
      = some 500 :=
  ⟨c2_amended.1 ⟨true, .ok, true, true, true⟩ ⟨"song.mp3", "uploads/u1"⟩ "wav"
      (Or.inl (by decide)),
   (c2_amended.2.2 ⟨true, .ok, true, true, true⟩ ⟨"pic.png", "uploads/u2"⟩ "zzz"
      (by decide) (by decide)).1⟩

end Convertz

namespace Convertz

/-- C3 (amended): the placeholder-delivered-as-success degradation exists
only for src/server.cjs document jobs: with LibreOffice unavailable the
request still completes as HTTP 200 downloading a fallback file. For a
src/server.cjs media job whose ffmpeg run fails, the error handler attempts
the conversion-note write, but when the note path lies in a nonexistent
directory — the case for every extensionless multer-stored upload — the
write throws inside the ffmpeg error callback and no response is ever
sent: the request ends with neither a note download nor an HTTP error, and
the stored upload is left on disk. In the src/unnamed/part_001 variant the
same failures are propagated: a failing media or document conversion
answers HTTP 500 and delivers nothing. -/
theorem c3_amended :
    (∀ (env : ServerCjs.Env) (f : UploadedFile) (fmt : String),
        env.ffmpegEnds = false →
        (ServerCjs.getFileCategory f.originalname = .audio
          ∨ ServerCjs.getFileCategory f.originalname = .video) →
        dirnameS (ServerCjs.mediaNotePath f.storedPath) ∉ ServerCjs.existingDirs →
        (ServerCjs.convertHandler env { file := some f, outputFormat := some fmt })
          = { status := none, disk := fsWrite f.storedPath [], delivered := none,
              spawned := ["ffmpeg"] })
    ∧ (∀ (env : ServerCjs.Env) (f : UploadedFile) (fmt : String),
        env.sofficeInstalled = false →
        ServerCjs.getFileCategory f.originalname = .document →
        (ServerCjs.convertHandler env { file := some f, outputFormat := some fmt }).status
          = some 200
        ∧ ((ServerCjs.convertHandler env
              { file := some f, outputFormat := some fmt }).delivered).isSome = true)
    ∧ (∀ (env : Part001.Env) (f : UploadedFile) (fmt : String),
        env.ffmpegEnds = false →
        (Part001.getFileCategory f.originalname = .audio
          ∨ Part001.getFileCategory f.originalname = .video) →
        (Part001.convertHandler env { file := some f, outputFormat := some fmt }).status
          = some 500
        ∧ (Part001.convertHandler env { file := some f, outputFormat := some fmt }).delivered
            = none)
    ∧ (∀ (env : Part001.Env) (f : UploadedFile) (fmt : String),
        env.loSpawnFails = true →
        Part001.getFileCategory f.originalname = .document →
        (Part001.convertHandler env { file := some f, outputFormat := some fmt }).status
          = some 500
        ∧ (Part001.convertHandler env { file := some f, outputFormat := some fmt }).delivered
            = none) := by
  refine ⟨?_, ?_, ?_, ?_⟩
  · intro env f fmt henv h hnote
    rcases h with h | h <;>
      simp [ServerCjs.convertHandler, h, ServerCjs.MediaConverter.convert, henv, hnote]
  · intro env f fmt henv h
    by_cases htxt : jsToUpper fmt = "TXT" <;>
      constructor <;>
        simp [ServerCjs.convertHandler, h, ServerCjs.DocumentConverter.convert, henv, htxt,
          selfMemFsWrite]
  · intro env f fmt henv h
    rcases h with h | h <;>
      constructor <;>
        simp [Part001.convertHandler, h, Part001.convertMedia, henv]
  · intro env f fmt henv h
    constructor <;>
      simp [Part001.convertHandler, h, Part001.convertDocument, henv]

/-- C3 witness: src/server.cjs sends no response at all on the failing
media conversion of song.mp3 (the note write throws), completes a document
job as 200 when LibreOffice is missing, and src/unnamed/part_001 answers
500 delivering nothing on the same failing media conversion, through the
theorem. -/
theorem c3_amended_witness :
    (ServerCjs.convertHandler ⟨true, .ok, true, false, true⟩
        { file := some ⟨"song.mp3", "uploads/u1"⟩, outputFormat := some "wav" })
      = { status := none, disk := fsWrite "uploads/u1" [], delivered := none,
          spawned := ["ffmpeg"] }
    ∧ (ServerCjs.convertHandler ⟨false, .ok, true, true, true⟩
        { file := some ⟨"report.docx", "uploads/u2"⟩, outputFormat := some "pdf" }).status
      = some 200
    ∧ (Part001.convertHandler ⟨true, false, false, 0, true⟩
        { file := some ⟨"song.mp3", "uploads/u1-song.mp3"⟩,
          outputFormat := some "wav" }).status = some 500 :=
  ⟨c3_amended.1 ⟨true, .ok, true, false, true⟩ ⟨"song.mp3", "uploads/u1"⟩ "wav"
      (by decide) (Or.inl (by decide)) (by decide),
   (c3_amended.2.1 ⟨false, .ok, true, true, true⟩ ⟨"report.docx", "uploads/u2"⟩ "pdf"
      (by decide) (by decide)).1,
   (c3_amended.2.2.1 ⟨true, false, false, 0, true⟩ ⟨"song.mp3", "uploads/u1-song.mp3"⟩ "wav"
      (by decide) (Or.inl (by decide))).1⟩

end Convertz

namespace Convertz

/-- C4 (amended): the src/server.cjs and src/unnamed/part_000 document
invocations pass a 30000 ms timeout option to exec, and in src/server.cjs a
timed-out run takes exactly the same catch path as a failed run (the
adapter result is identical), while the src/unnamed/part_001 document
adapter spawns libreoffice with no timeout at all and can hang
indefinitely. -/
theorem c4_amended :
    (∀ fmt i d : String, (ServerCjs.documentInvocation fmt i d).timeoutMs = some 30000)
    ∧ (∀ fmt d t : String, (Part000.documentInvocation fmt d t).timeoutMs = some 30000)
    ∧ (∀ fmt d i : String, (Part001.documentInvocation fmt d i).timeoutMs = none)
    ∧ (∀ (inst prod ff sh : Bool) (inputPath fmt : String) (disk : List String),
        ServerCjs.DocumentConverter.convert ⟨inst, .timeout, prod, ff, sh⟩ inputPath fmt disk
          = ServerCjs.DocumentConverter.convert ⟨inst, .fail, prod, ff, sh⟩ inputPath fmt disk) :=
  ⟨fun _ _ _ => rfl, fun _ _ _ => rfl, fun _ _ _ => rfl,
   fun _ _ _ _ _ _ _ => rfl⟩

/-- C5 (amended): the two-step discovery belongs to the src/unnamed/part_000
adapter: convertWithLibreOffice resolves the exact expected
baseName.targetFormat entry when present, otherwise the first directory
entry starting with baseName, and rejects with the output-not-found message
only when both steps fail. The src/server.cjs adapter checks only the exact
expected path and on absence falls back to the conversion-note file without
any scan, and the src/unnamed/part_001 adapter checks only the exact
generated path and rejects on absence. -/
theorem c5_amended :
    (∀ (dir inp fmt : String) (files : List String),
        (parseNameS (basenameS inp) ++ "." ++ fmt) ∈ files →
        Part000.discoverOutput dir inp fmt files
          = .ok (pjoin dir (parseNameS (basenameS inp) ++ "." ++ fmt)))
    ∧ (∀ (dir inp fmt f : String) (files : List String),
        (parseNameS (basenameS inp) ++ "." ++ fmt) ∉ files →
        files.find? (fun g => startsWithS g (parseNameS (basenameS inp))) = some f →
        Part000.discoverOutput dir inp fmt files = .ok (pjoin dir f))
    ∧ (∀ (dir inp fmt : String) (files : List String),
        (parseNameS (basenameS inp) ++ "." ++ fmt) ∉ files →
        files.find? (fun g => startsWithS g (parseNameS (basenameS inp))) = none →
        Part000.discoverOutput dir inp fmt files
          = .error "LibreOffice conversion completed but output file not found")
    ∧ (∀ (ff sh : Bool) (inputPath fmt : String) (disk : List String),
        ServerCjs.docOutputPath inputPath fmt ∉ disk →
        jsToUpper fmt ≠ "TXT" →
        (ServerCjs.DocumentConverter.convert ⟨true, .ok, false, ff, sh⟩
            inputPath fmt disk).1 = .ok (ServerCjs.docNotePath inputPath))
    ∧ (∀ (sh ffm : Bool) (inputPath outputPath fmt : String) (disk : List String),
        pjoin (dirnameS outputPath) (parseNameS inputPath ++ "." ++ jsToLower fmt) ∉ disk →
        (Part001.convertDocument ⟨sh, ffm, false, 0, false⟩
            inputPath outputPath fmt disk).1
          = .error "Conversion failed - output file not found") := by
  refine ⟨?_, ?_, ?_, ?_, ?_⟩
  · intro dir inp fmt files h
    simp [Part000.discoverOutput, h]
  · intro dir inp fmt f files h hf
    simp [Part000.discoverOutput, h, hf]
  · intro dir inp fmt files h hf
    simp [Part000.discoverOutput, h, hf]
  · intro ff sh inputPath fmt disk h hfmt
    simp [ServerCjs.DocumentConverter.convert, h, hfmt]
  · intro sh ffm inputPath outputPath fmt disk h
    simp [Part001.convertDocument, h]

/-- C5 witness: discovery at doc1 with pdf: the exact entry wins when
present, the prefix entry doc1.PDF is taken when the exact one is absent,
the rejection fires when nothing matches, the src/server.cjs adapter
answers the note path, and the src/unnamed/part_001 adapter rejects,
through the theorem. -/
theorem c5_amended_witness :
    Part000.discoverOutput "uploads" "temp/t1/doc1.docx" "pdf" ["doc1.pdf", "other.txt"]
      = .ok "uploads/doc1.pdf"
    ∧ Part000.discoverOutput "uploads" "temp/t1/doc1.docx" "pdf" ["other.txt", "doc1.PDF"]
      = .ok "uploads/doc1.PDF"
    ∧ Part000.discoverOutput "uploads" "temp/t1/doc1.docx" "pdf" ["other.txt"]
      = .error "LibreOffice conversion completed but output file not found"
    ∧ (ServerCjs.DocumentConverter.convert ⟨true, .ok, false, true, true⟩
        "uploads/j1" "pdf" ["uploads/j1"]).1 = .ok "uploads/j1_conversion_note.txt"
    ∧ (Part001.convertDocument ⟨true, true, false, 0, false⟩
        "uploads/u1-doc1.docx" "outputs/doc1.pdf" "pdf" ["uploads/u1-doc1.docx"]).1
      = .error "Conversion failed - output file not found" :=
  ⟨c5_amended.1 "uploads" "temp/t1/doc1.docx" "pdf" ["doc1.pdf", "other.txt"] (by decide),
   c5_amended.2.1 "uploads" "temp/t1/doc1.docx" "pdf" "doc1.PDF" ["other.txt", "doc1.PDF"]
     (by decide) (by decide),
   c5_amended.2.2.1 "uploads" "temp/t1/doc1.docx" "pdf" ["other.txt"] (by decide) (by decide),
   c5_amended.2.2.2.1 true true "uploads/j1" "pdf" ["uploads/j1"] (by decide) (by decide),
   c5_amended.2.2.2.2 true true "uploads/u1-doc1.docx" "outputs/doc1.pdf" "pdf"
     ["uploads/u1-doc1.docx"] (by decide)⟩

end Convertz

namespace Convertz

/-- C8 (amended): the default-encoder fallback belongs to the
src/unnamed/part_001 image adapter: a target format outside its explicit
cases is encoded with the png encoder, the switch yields an encoder for
every format (it never errors), and the adapter writes the output path
whenever sharp succeeds. The src/server.cjs image adapter instead throws
the unsupported-format error for any target outside its explicit cases. -/
theorem c8_amended :
    (∀ fmt : String,
        jsToLower fmt ∉ ["jpg", "jpeg", "png", "webp", "bmp", "tiff"] →
        Part001.convertImageSwitch fmt = .encoded "png")
    ∧ (∀ fmt : String, ∃ enc : String, Part001.convertImageSwitch fmt = .encoded enc)
    ∧ (∀ (env : Part001.Env) (outputPath : String) (disk : List String),
        env.sharpOk = true →
        (Part001.convertImage env outputPath disk).1 = .ok ()
        ∧ outputPath ∈ (Part001.convertImage env outputPath disk).2.1)
    ∧ (∀ fmt : String, jsToUpper fmt ∉ ServerCjs.SUPPORTED_FORMATS.images →
        ServerCjs.imageSwitch fmt = .unsupportedError ("Unsupported image format: " ++ fmt)) := by
  refine ⟨?_, ?_, ?_, fun fmt h => imageSwitchDefault fmt h⟩
  · intro fmt h
    simp only [List.mem_cons, List.not_mem_nil, or_false] at h
    push_neg at h
    obtain ⟨h1, h2, h3, h4, h5, h6⟩ := h
    simp [Part001.convertImageSwitch, h1, h2, h3, h4, h5, h6]
  · intro fmt
    simp only [Part001.convertImageSwitch]
    repeat' split
    all_goals exact ⟨_, rfl⟩
  · intro env outputPath disk henv
    constructor <;> simp [Part001.convertImage, henv, selfMemFsWrite]

/-- C8 witness: the unknown image target xyz is png-encoded by the
src/unnamed/part_001 switch while the src/server.cjs switch throws, through
the theorem. -/
theorem c8_amended_witness :
    Part001.convertImageSwitch "xyz" = .encoded "png"
    ∧ ServerCjs.imageSwitch "xyz" = .unsupportedError "Unsupported image format: xyz"
    ∧ (Part001.convertImage ⟨true, true, false, 0, true⟩ "outputs/pic.xyz" []).1 = .ok () :=
  ⟨c8_amended.1 "xyz" (by decide),
   c8_amended.2.2.2 "xyz" (by decide),
   (c8_amended.2.2.1 ⟨true, true, false, 0, true⟩ "outputs/pic.xyz" [] (by decide)).1⟩

/-- C9 (amended): in src/unnamed/part_001 the stored upload paths of two
jobs are distinct whenever their random tokens differ — the uuid is part of
the stored filename — but the output artifact path carries no per-job token:
it depends only on the original name and the target format, so it is a
member of the scratch-path set of every job converting that name to that
format, and two such jobs collide on it. -/
theorem c9_amended :
    (∀ u₁ u₂ o : String, u₁ ≠ u₂ →
        Part001.storedUploadPath u₁ o ≠ Part001.storedUploadPath u₂ o)
    ∧ (∀ u₁ u₂ o fmt : String,
        Part001.outputArtifactPath o fmt ∈ Part001.jobScratchPaths u₁ o fmt
        ∧ Part001.outputArtifactPath o fmt ∈ Part001.jobScratchPaths u₂ o fmt) := by
  constructor
  · intro u₁ u₂ o hne heq
    apply hne
    have hdata := congrArg String.data heq
    simp only [Part001.storedUploadPath, Part001.uploadsDir, pjoin, String.data_append,
      List.append_assoc] at hdata
    have h1 := List.append_cancel_left hdata
    have h2 := List.append_cancel_left h1
    have h3 : u₁.data ++ "-".data ++ o.data = u₂.data ++ "-".data ++ o.data := by
      simpa [List.append_assoc] using h2
    have h4 := List.append_cancel_right (List.append_cancel_right h3)
    exact String.ext h4
  · intro u₁ u₂ o fmt
    constructor <;> simp [Part001.jobScratchPaths]

/-- C9 witness: two jobs with tokens 1111 and 2222 store photo.png at
distinct input paths yet share the output path outputs/photo.webp, through
the theorem. -/
theorem c9_amended_witness :
    Part001.storedUploadPath "1111" "photo.png" ≠ Part001.storedUploadPath "2222" "photo.png"
    ∧ Part001.outputArtifactPath "photo.png" "webp"
        ∈ Part001.jobScratchPaths "1111" "photo.png" "webp"
    ∧ Part001.outputArtifactPath "photo.png" "webp"
        ∈ Part001.jobScratchPaths "2222" "photo.png" "webp" :=
  ⟨c9_amended.1 "1111" "2222" "photo.png" (by decide),
   (c9_amended.2 "1111" "2222" "photo.png" "webp").1,
   (c9_amended.2 "1111" "2222" "photo.png" "webp").2⟩

end Convertz
